import Mathlib

/-!
Shallow embedding of the client-side orchestration logic of the AutoViz
application (src/static/js/app.js) and proofs about it.

Modelling conventions:
- DOM mutation becomes explicit state passing over `AppState` (the three
  `this.current*` fields) and `UI` (the DOM pieces the orchestration reads
  or writes: the two trigger buttons, the axis selector values, the data
  preview table).
- `fetch` and `response.json()` are suspension points whose outcome is an
  input (`FetchResult`): either a parsed response object or a thrown
  transport/decode error carrying the error message.
- `JSON.parse` (a platform builtin) is an input parameter
  `parse : String → Except String ChartSpec`; `Except.error msg` models the
  exception whose `.message` the catch block reports.
- Observable side effects (issued network requests, notifications, busy
  engage/release events on the trigger buttons, triggered image downloads)
  are collected in an `Effects` record instead of happening in place.
- A JS scalar value (cell of a row record) is `Value`; JS truthiness of
  scalars and template-literal stringification are `Value.truthy` and
  `Value.toText`. A row record is an association list; an absent property
  (`row[h]` undefined) is a `none` lookup, and undefined is falsy.
-/

namespace AutoViz

/-- A JS scalar value as stored in a row record (string / number / bool / null). -/
inductive Value where
  | vStr (s : String)
  | vNum (n : Int)
  | vBool (b : Bool)
  | vNull
deriving Repr, DecidableEq

/-- JS truthiness of a scalar: "" , 0, false and null are falsy. -/
def Value.truthy : Value → Bool
  | .vStr s => decide (s ≠ "")
  | .vNum n => decide (n ≠ 0)
  | .vBool b => b
  | .vNull => false

/-- JS template-literal stringification of a scalar. -/
def Value.toText : Value → String
  | .vStr s => s
  | .vNum n => toString n
  | .vBool b => if b then "true" else "false"
  | .vNull => "null"

/-- A row record: mapping from header name to scalar value. -/
abbrev Row := List (String × Value)

/-- The uploaded file handle (name and size are what showFileInfo reads). -/
structure UpFile where
  name : String
  size : Nat
deriving Repr, DecidableEq

/-- The chart payload as parsed by JSON.parse: opaque to the orchestrator. -/
structure ChartSpec where
  payload : String
deriving Repr, DecidableEq

/-- The five config fields read from the DOM in generateChart. -/
structure ChartConfig where
  chart_type : String
  x_axis : String
  y_axis : String
  color_scheme : String
  title : String
deriving Repr, DecidableEq

/-- Response body of POST /upload. -/
structure UploadResponse where
  success : Bool
  data : List Row
  headers : List String
  column_info : List (String × String)
  total_rows : Nat
  error : String
deriving Repr, DecidableEq

/-- Response body of POST /generate_chart. -/
structure GenResponse where
  success : Bool
  chart : String
  error : String
deriving Repr, DecidableEq

/-- Outcome of an awaited fetch + response.json(): parsed body, or a thrown
error (network failure or JSON decode failure) with its message. -/
inductive FetchResult (α : Type) where
  | ok (response : α)
  | thrown (message : String)
deriving Repr, DecidableEq

/-- A DOM button: the two fields showLoading touches. -/
structure Button where
  disabled : Bool
  textContent : String
deriving Repr, DecidableEq

/-- showLoading's body: disable the control and swap its label. -/
def showLoadingEngage (btn : Button) : Button :=
  { btn with disabled := true, textContent := "Loading..." }

/-- The closure returned by showLoading: re-enable and set the label to the
fixed string "Browse" (it does not capture the original label). -/
def showLoadingRelease (btn : Button) : Button :=
  { btn with disabled := false, textContent := "Browse" }

/-- The orchestrator's stored state: the three this.current* fields. -/
structure AppState where
  currentData : Option (List Row)
  currentHeaders : Option (List String)
  currentChart : Option ChartSpec
deriving Repr, DecidableEq

/-- The DOM state the orchestration logic reads or writes. -/
structure UI where
  browseBtn : Button
  generateBtn : Button
  xAxisValue : String
  yAxisValue : String
  tableHeaderRow : List String
  tableBody : List (List String)
deriving Repr, DecidableEq

/-- A network request issued by the orchestrator. -/
inductive NetworkCall where
  | upload (f : UpFile)
  | genChart (config : ChartConfig)
  | exportDataCall (format : String)
deriving Repr, DecidableEq

/-- A busy-gate event on a named trigger control. -/
inductive BusyEvent where
  | engage (control : String)
  | release (control : String)
deriving Repr, DecidableEq

/-- A Plotly.downloadImage invocation. -/
structure Download where
  format : String
  width : Nat
  height : Nat
  filename : String
deriving Repr, DecidableEq

/-- The observable side effects of one action, in order of occurrence. -/
structure Effects where
  networkCalls : List NetworkCall
  notifications : List (String × String)
  busy : List BusyEvent
  downloads : List Download
deriving Repr, DecidableEq

/-- No side effects. -/
def Effects.nil : Effects := ⟨[], [], [], []⟩

/-- populateColumnSelectors: clearing innerHTML selects the empty placeholder
option; then, when there are at least two headers, the first two become the
selected values. -/
def populateColumnSelectors (headers : List String) (ui : UI) : UI :=
  let cleared := { ui with xAxisValue := "", yAxisValue := "" }
  if 2 ≤ headers.length then
    { cleared with xAxisValue := headers.getD 0 "", yAxisValue := headers.getD 1 "" }
  else
    cleared

/-- One preview cell: the template fragment interpolates row[h] || "", so a
missing or falsy value renders as the empty string. -/
def renderCell (row : Row) (h : String) : String :=
  match List.lookup h row with
  | some v => if v.truthy then v.toText else ""
  | none => ""

/-- One preview row: one cell per header, in header order. -/
def renderRow (headers : List String) (row : Row) : List String :=
  headers.map (renderCell row)

/-- showDataPreview: header row from headers, body from data.slice(0, 10).
The HTML wrapper markup is dropped; each row is its list of cell texts. -/
def showDataPreview (data : List Row) (headers : List String) (ui : UI) : UI :=
  { ui with tableHeaderRow := headers,
            tableBody := (data.take 10).map (renderRow headers) }

/-- handleFileUpload: null file returns immediately; otherwise engage the
busy gate on the browse button, issue the upload, and on the parsed result
either store data/headers and project the UI (success), or notify the
service error, or notify the thrown error; the finally block releases. -/
def handleFileUpload (st : AppState) (ui : UI) (file : Option UpFile)
    (outcome : FetchResult UploadResponse) : AppState × UI × Effects :=
  match file with
  | none => (st, ui, Effects.nil)
  | some f =>
    let ui := { ui with browseBtn := showLoadingEngage ui.browseBtn }
    match outcome with
    | .thrown msg =>
        (st,
         { ui with browseBtn := showLoadingRelease ui.browseBtn },
         ⟨[.upload f], [("Upload failed: " ++ msg, "error")],
          [.engage "browse-btn", .release "browse-btn"], []⟩)
    | .ok result =>
      if result.success then
        let st := { st with currentData := some result.data,
                            currentHeaders := some result.headers }
        let ui := populateColumnSelectors result.headers ui
        let ui := showDataPreview result.data result.headers ui
        (st,
         { ui with browseBtn := showLoadingRelease ui.browseBtn },
         ⟨[.upload f], [("File uploaded successfully!", "success")],
          [.engage "browse-btn", .release "browse-btn"], []⟩)
      else
        (st,
         { ui with browseBtn := showLoadingRelease ui.browseBtn },
         ⟨[.upload f], [(result.error, "error")],
          [.engage "browse-btn", .release "browse-btn"], []⟩)

/-- generateChart: empty x_axis short-circuits with one error notification;
otherwise engage the busy gate on the generate button, issue the request,
and on success JSON.parse the chart payload and store it (a parse exception
falls into the catch block); the finally block releases. -/
def generateChart (st : AppState) (ui : UI) (config : ChartConfig)
    (outcome : FetchResult GenResponse)
    (parse : String → Except String ChartSpec) : AppState × UI × Effects :=
  if config.x_axis = "" then
    (st, ui, ⟨[], [("Please select X-axis column", "error")], [], []⟩)
  else
    let ui := { ui with generateBtn := showLoadingEngage ui.generateBtn }
    match outcome with
    | .thrown msg =>
        (st,
         { ui with generateBtn := showLoadingRelease ui.generateBtn },
         ⟨[.genChart config], [("Chart generation failed: " ++ msg, "error")],
          [.engage "generate-chart", .release "generate-chart"], []⟩)
    | .ok result =>
      if result.success then
        match parse result.chart with
        | .ok c =>
            ({ st with currentChart := some c },
             { ui with generateBtn := showLoadingRelease ui.generateBtn },
             ⟨[.genChart config], [("Chart generated successfully!", "success")],
              [.engage "generate-chart", .release "generate-chart"], []⟩)
        | .error msg =>
            (st,
             { ui with generateBtn := showLoadingRelease ui.generateBtn },
             ⟨[.genChart config], [("Chart generation failed: " ++ msg, "error")],
              [.engage "generate-chart", .release "generate-chart"], []⟩)
      else
        (st,
         { ui with generateBtn := showLoadingRelease ui.generateBtn },
         ⟨[.genChart config], [(result.error, "error")],
          [.engage "generate-chart", .release "generate-chart"], []⟩)

/-- exportChart: missing chart is a local error; only "png" triggers the
Plotly download (1200 by 800, filename from the chart title or "chart");
any other format falls through with no effect at all. -/
def exportChart (st : AppState) (chartTitle : String) (format : String) :
    AppState × Effects :=
  if st.currentChart.isNone then
    (st, ⟨[], [("No chart to export", "error")], [], []⟩)
  else if format = "png" then
    (st, ⟨[], [("Chart exported as PNG", "success")], [],
      [⟨"png", 1200, 800, if chartTitle = "" then "chart" else chartTitle⟩]⟩)
  else
    (st, Effects.nil)

/-- Concrete sample values for witnesses and counterexamples. -/
def sampleChart : ChartSpec := ⟨"chartpayload"⟩

def emptyState : AppState := ⟨none, none, none⟩

def chartState : AppState := ⟨none, none, some sampleChart⟩

def ui0 : UI := ⟨⟨false, "Browse"⟩, ⟨false, "Generate Chart"⟩, "", "", [], []⟩

def sampleFile : UpFile := ⟨"data.csv", 100⟩

def okUpload : UploadResponse := ⟨true, [], ["A", "B", "C"], [], 3, ""⟩

def cfgX : ChartConfig := ⟨"bar", "x", "y", "viridis", ""⟩

def cfgNoX : ChartConfig := ⟨"bar", "", "y", "viridis", ""⟩

/-- C1 counterexample: starting from a state holding a previously generated
chart, a fully successful upload leaves the stored chart non-null — the
claim that the success path clears the current chart is false. -/
theorem c1_upload_keeps_chart_cex :
    ¬ (handleFileUpload chartState ui0 (some sampleFile)
        (.ok okUpload)).1.currentChart = none := by
  decide

/-- C1 amended: a successful upload replaces currentData and currentHeaders
with the response payload, but currentChart is untouched: it retains
whatever value it had before the upload. -/
theorem c1_upload_preserves_chart (st : AppState) (ui : UI) (f : UpFile)
    (result : UploadResponse) (hs : result.success = true) :
    (handleFileUpload st ui (some f) (.ok result)).1.currentChart
        = st.currentChart ∧
    (handleFileUpload st ui (some f) (.ok result)).1.currentData
        = some result.data ∧
    (handleFileUpload st ui (some f) (.ok result)).1.currentHeaders
        = some result.headers := by
  simp [handleFileUpload, hs]

/-- C1 witness at a concrete pre-existing chart and successful upload. -/
theorem c1_upload_preserves_chart_witness :
    (handleFileUpload chartState ui0 (some sampleFile)
        (.ok okUpload)).1.currentChart = chartState.currentChart ∧
    (handleFileUpload chartState ui0 (some sampleFile)
        (.ok okUpload)).1.currentData = some okUpload.data ∧
    (handleFileUpload chartState ui0 (some sampleFile)
        (.ok okUpload)).1.currentHeaders = some okUpload.headers :=
  c1_upload_preserves_chart chartState ui0 sampleFile okUpload rfl

/-- C2 bug demonstration: the release closure returned by showLoading sets
the label to the fixed string "Browse" instead of the label the control had
before engagement; engaging and releasing the generate trigger (original
label "Generate Chart") leaves it labelled "Browse". -/
theorem c2_release_label_bug :
    (showLoadingRelease (showLoadingEngage ⟨false, "Generate Chart"⟩)).textContent
        = "Browse" ∧
    ("Browse" : String) ≠ "Generate Chart" := by
  decide

/-- C3 counterexample: an upload with a null file produces no notification
at all — the claim that the missing-file validation error is reported via
the Notifier is false. -/
theorem c3_null_file_silent_cex :
    (handleFileUpload emptyState ui0 none
        (.ok okUpload)).2.2.notifications = [] := by
  decide

/-- C3 amended: upload with a null/absent file is a complete silent no-op:
no network call, no busy-gate engagement, no notification of any kind, and
both stored state and UI are returned unchanged. -/
theorem c3_null_file_noop (st : AppState) (ui : UI)
    (outcome : FetchResult UploadResponse) :
    handleFileUpload st ui none outcome = (st, ui, Effects.nil) :=
  rfl

/-- C5: generateChart with an empty x_axis short-circuits: no network call,
no busy-gate event, exactly one notification (the X-axis error), and both
stored state and UI unchanged, for every outcome and parse function. -/
theorem c5_empty_xaxis_short_circuit (st : AppState) (ui : UI)
    (config : ChartConfig) (outcome : FetchResult GenResponse)
    (parse : String → Except String ChartSpec)
    (hx : config.x_axis = "") :
    generateChart st ui config outcome parse
      = (st, ui, ⟨[], [("Please select X-axis column", "error")], [], []⟩) := by
  unfold generateChart
  rw [if_pos hx]

/-- C5 witness at a concrete empty-x config. -/
theorem c5_empty_xaxis_witness :
    generateChart emptyState ui0 cfgNoX (.thrown "net") Except.error
      = (emptyState, ui0,
         ⟨[], [("Please select X-axis column", "error")], [], []⟩) :=
  c5_empty_xaxis_short_circuit emptyState ui0 cfgNoX (.thrown "net")
    Except.error rfl

/-- C4 counterexample: with no dataset stored (state Empty) and a non-empty
x_axis, generateChart still issues the chart-generation request — the claim
that a missing dataset suppresses the network call is false. -/
theorem c4_no_dataset_cex :
    emptyState.currentData = none ∧
    ¬ (generateChart emptyState ui0 cfgX (.thrown "net")
        Except.error).2.2.networkCalls = [] := by
  decide

/-- C4 amended: generateChart enforces only the x_axis precondition; when
the stored data is null but x_axis is non-empty, the request is issued
anyway, for every config, outcome and parse function. -/
theorem c4_no_dataset_still_calls (st : AppState) (ui : UI)
    (config : ChartConfig) (outcome : FetchResult GenResponse)
    (parse : String → Except String ChartSpec)
    (hd : st.currentData = none) (hx : config.x_axis ≠ "") :
    (generateChart st ui config outcome parse).2.2.networkCalls
      = [.genChart config] := by
  unfold generateChart
  rw [if_neg hx]
  cases outcome with
  | thrown msg => rfl
  | ok result =>
    cases hs : result.success with
    | false => simp [hs]
    | true =>
      simp only [hs, if_true]
      cases parse result.chart <;> rfl

/-- C4 witness at the Empty state and a concrete config with x_axis "x". -/
theorem c4_no_dataset_still_calls_witness :
    (generateChart emptyState ui0 cfgX (.thrown "net")
        Except.error).2.2.networkCalls = [.genChart cfgX] :=
  c4_no_dataset_still_calls emptyState ui0 cfgX (.thrown "net")
    Except.error rfl (by decide)

/-- C6: after a successful upload, when the response has at least two
headers the X selector value is headers[0] and the Y selector value is
headers[1]; with fewer than two headers both selector values are the empty
placeholder (unselected). -/
theorem c6_axis_defaults (st : AppState) (ui : UI) (f : UpFile)
    (result : UploadResponse) (hs : result.success = true) :
    (2 ≤ result.headers.length →
        (handleFileUpload st ui (some f) (.ok result)).2.1.xAxisValue
            = result.headers.getD 0 "" ∧
        (handleFileUpload st ui (some f) (.ok result)).2.1.yAxisValue
            = result.headers.getD 1 "") ∧
    (result.headers.length < 2 →
        (handleFileUpload st ui (some f) (.ok result)).2.1.xAxisValue = "" ∧
        (handleFileUpload st ui (some f) (.ok result)).2.1.yAxisValue = "") := by
  constructor
  · intro hlen
    simp [handleFileUpload, hs, populateColumnSelectors, showDataPreview,
      if_pos hlen]
  · intro hlen
    simp [handleFileUpload, hs, populateColumnSelectors, showDataPreview,
      if_neg (Nat.not_le_of_lt hlen)]

/-- C6 witness: headers A, B, C give X default A and Y default B. -/
theorem c6_axis_defaults_witness :
    (handleFileUpload emptyState ui0 (some sampleFile)
        (.ok okUpload)).2.1.xAxisValue = "A" ∧
    (handleFileUpload emptyState ui0 (some sampleFile)
        (.ok okUpload)).2.1.yAxisValue = "B" :=
  (c6_axis_defaults emptyState ui0 sampleFile okUpload rfl).1 (by decide)

/-- C7: after a successful upload the preview body has exactly
min 10 data.length rows, and row i of the preview is the rendering of row i
of the response data, in original order; the reported total_rows is
universally quantified and plays no role. -/
theorem c7_preview_cap (st : AppState) (ui : UI) (f : UpFile)
    (result : UploadResponse) (hs : result.success = true) :
    (handleFileUpload st ui (some f) (.ok result)).2.1.tableBody.length
        = min 10 result.data.length ∧
    ∀ i : Nat, i < min 10 result.data.length →
      (handleFileUpload st ui (some f) (.ok result)).2.1.tableBody[i]?
        = (result.data[i]?).map (renderRow result.headers) := by
  have hbody : (handleFileUpload st ui (some f) (.ok result)).2.1.tableBody
      = (result.data.take 10).map (renderRow result.headers) := by
    simp [handleFileUpload, hs, populateColumnSelectors, showDataPreview]
  constructor
  · rw [hbody]
    simp [List.length_take]
  · intro i hi
    rw [hbody, List.getElem?_map, List.getElem?_take_of_lt]
    exact lt_of_lt_of_le hi (Nat.min_le_left 10 result.data.length)

/-- C7 witness at a concrete 3-row upload: preview has 3 rows. -/
theorem c7_preview_cap_witness :
    (handleFileUpload emptyState ui0 (some sampleFile)
        (.ok ⟨true, [[("A", .vNum 1)], [("A", .vNum 2)], [("A", .vNum 3)]],
              ["A"], [], 999, ""⟩)).2.1.tableBody.length
      = min 10 ([[("A", Value.vNum 1)], [("A", Value.vNum 2)],
                 [("A", Value.vNum 3)]] : List Row).length :=
  (c7_preview_cap emptyState ui0 sampleFile
    ⟨true, [[("A", .vNum 1)], [("A", .vNum 2)], [("A", .vNum 3)]],
     ["A"], [], 999, ""⟩ rfl).1

/-- C8: when the service reports success but JSON.parse of the chart
payload throws, the stored state is returned unchanged (the old chart is
kept), exactly one error notification is produced, and the busy gate on the
generate trigger is engaged and then released exactly once. -/
theorem c8_parse_failure_absorbed (st : AppState) (ui : UI)
    (config : ChartConfig) (result : GenResponse)
    (parse : String → Except String ChartSpec) (msg : String)
    (hx : config.x_axis ≠ "") (hs : result.success = true)
    (hp : parse result.chart = .error msg) :
    (generateChart st ui config (.ok result) parse).1 = st ∧
    (generateChart st ui config (.ok result) parse).2.2.notifications
        = [("Chart generation failed: " ++ msg, "error")] ∧
    (generateChart st ui config (.ok result) parse).2.2.busy
        = [.engage "generate-chart", .release "generate-chart"] := by
  unfold generateChart
  rw [if_neg hx]
  simp [hs, hp]

/-- C8 witness at a concrete success response whose chart is unparseable. -/
theorem c8_parse_failure_witness :
    (generateChart chartState ui0 cfgX
        (.ok ⟨true, "notjson", ""⟩) Except.error).1 = chartState ∧
    (generateChart chartState ui0 cfgX
        (.ok ⟨true, "notjson", ""⟩) Except.error).2.2.notifications
      = [("Chart generation failed: " ++ "notjson", "error")] ∧
    (generateChart chartState ui0 cfgX
        (.ok ⟨true, "notjson", ""⟩) Except.error).2.2.busy
      = [.engage "generate-chart", .release "generate-chart"] :=
  c8_parse_failure_absorbed chartState ui0 cfgX ⟨true, "notjson", ""⟩
    Except.error "notjson" (by decide) rfl rfl

/-- C9: a preview cell whose looked-up value is falsy renders as the empty
string; a missing property also renders as the empty string (so a genuine 0
is indistinguishable from a missing value); a truthy value renders as its
stringification; and 0, null, false and "" are all falsy. -/
theorem c9_falsy_cells_blank (row : Row) (h : String) :
    (∀ v : Value, List.lookup h row = some v → v.truthy = false →
        renderCell row h = "") ∧
    (List.lookup h row = none → renderCell row h = "") ∧
    (∀ v : Value, List.lookup h row = some v → v.truthy = true →
        renderCell row h = v.toText) ∧
    ((Value.vNum 0).truthy = false ∧ Value.vNull.truthy = false ∧
     (Value.vBool false).truthy = false ∧ (Value.vStr "").truthy = false) := by
  refine ⟨?_, ?_, ?_, by decide⟩
  · intro v hv hf
    simp [renderCell, hv, hf]
  · intro hv
    simp [renderCell, hv]
  · intro v hv ht
    simp [renderCell, hv, ht]

/-- C9 witness: a cell holding the number 0 and a cell with no value for
the header both render as the empty string. -/
theorem c9_falsy_cells_blank_witness :
    renderCell [("A", Value.vNum 0)] "A" = "" ∧ renderCell [] "A" = "" :=
  ⟨(c9_falsy_cells_blank [("A", Value.vNum 0)] "A").1 (Value.vNum 0)
      (by decide) (by decide),
   (c9_falsy_cells_blank [] "A").2.1 (by decide)⟩

/-- C10: exportChart with a present chart and any format other than "png"
is a silent no-op: state unchanged and no effect of any kind (no download,
no notification, no network call). -/
theorem c10_nonpng_noop (st : AppState) (chartTitle format : String)
    (c : ChartSpec) (hc : st.currentChart = some c) (hf : format ≠ "png") :
    exportChart st chartTitle format = (st, Effects.nil) := by
  unfold exportChart
  rw [hc]
  simp [hf]

/-- C10 witness: exporting as "csv" with a chart present does nothing. -/
theorem c10_nonpng_noop_witness :
    exportChart chartState "" "csv" = (chartState, Effects.nil) :=
  c10_nonpng_noop chartState "" "csv" sampleChart rfl (by decide)

end AutoViz
